import Mathlib

/-!
A shallow embedding of `src/app.py` of the JQL-Creator repository, together
with theorems settling the behavioural claims about it.

The program is a small Gradio application: `query_groq_api` posts one
chat-completion request to the Groq endpoint and converts every failure into a
displayable string, `process_response` splits the model's reply into a query
part and an explanation part, `refine_with_error` resubmits a query together
with a pasted Jira error, and the done button clears the four visible fields.

Python strings are modelled as Lean `String` (lists of characters); the string
primitives the program uses (`str.split(sep, 1)`, `str.strip()`,
`str.replace(old, new)`) are embedded as executable functions below.  The
world outside the process — the HTTP response, the process environment — is
passed explicitly as an argument, and the outbound request that
`requests.post` sends is returned as an explicit trace (a list of requests),
so that "exactly one call" is a statement about the trace.
-/

namespace JQLCreator

/-- `leadsWith pat l` is true when the character list `l` starts with `pat`:
the test Python performs at each scan position of `str.split` and
`str.replace`. -/
def leadsWith : List Char → List Char → Bool
  | [], _ => true
  | _ :: _, [] => false
  | p :: ps, c :: cs => p == c && leadsWith ps cs

/-- The first occurrence of a non-empty separator `sep` in `s`:
`some (before, after)` when `sep` occurs, `none` otherwise.  This is the
search performed by Python's `s.split(sep, 1)`. -/
def splitOnceAt (sep : List Char) : List Char → Option (List Char × List Char)
  | [] => none
  | c :: rest =>
    if leadsWith sep (c :: rest) then some ([], (c :: rest).drop sep.length)
    else
      match splitOnceAt sep rest with
      | some (pre, post) => some (c :: pre, post)
      | none => none

/-- Python `s.split(sep, 1)` for a non-empty `sep`: a one- or two-element
list of pieces. -/
def pySplitOnce (sep : List Char) (s : List Char) : List (List Char) :=
  match splitOnceAt sep s with
  | some (pre, post) => [pre, post]
  | none => [s]

/-- The whitespace characters Python's `str.strip()` removes, restricted to
the Latin-1 range (the Unicode space separators above U+00A0, which the
program's strings never contain, are omitted). -/
def pyIsSpace (c : Char) : Bool :=
  c == ' ' || c == '\t' || c == '\n' || c == '\r' || c == '\x0b' || c == '\x0c'
    || c == '\x1c' || c == '\x1d' || c == '\x1e' || c == '\x1f'
    || c == '\x85' || c == '\xa0'

/-- Python `s.strip()`: remove leading and trailing whitespace. -/
def pyStrip (s : List Char) : List Char :=
  ((s.dropWhile pyIsSpace).reverse.dropWhile pyIsSpace).reverse

/-- Scanner behind `pyReplace`: `skip` counts characters still inside an
already-recognised occurrence of `old` (they are copied into nothing), and at
`skip = 0` the scan tests for a fresh occurrence. -/
def replAux (old new : List Char) : Nat → List Char → List Char
  | _, [] => []
  | k + 1, _ :: rest => replAux old new k rest
  | 0, c :: rest =>
    if leadsWith old (c :: rest) && !old.isEmpty then
      new ++ replAux old new (old.length - 1) rest
    else c :: replAux old new 0 rest

/-- Python `s.replace(old, new)` for a non-empty `old`: replace every
leftmost-first, non-overlapping occurrence of `old` by `new`.  (For an empty
`old` Python interleaves `new` everywhere; the program only ever replaces
non-empty patterns, and this model leaves `s` unchanged in that case.) -/
def pyReplace (old new s : List Char) : List Char :=
  replAux old new 0 s

/-- Python `s.strip()` at the `String` level. -/
def py_strip (s : String) : String := ⟨pyStrip s.toList⟩

/-- One message of the chat-completion conversation. -/
structure Message where
  role : String
  content : String
deriving DecidableEq

/-- The outbound HTTP POST issued by `query_groq_api`: its URL, the two
headers, and the JSON payload (model identifier, conversation, token bound). -/
structure HttpRequest where
  url : String
  authorization : String
  contentType : String
  model : String
  messages : List Message
  max_tokens : Nat
deriving DecidableEq

/-- One element of the response's `choices` list, as consumed by
`response.json()["choices"][0]["message"]["content"]`. -/
structure GroqChoice where
  message_content : String
deriving DecidableEq

/-- The body of a completed HTTP response as seen through the client's
parsing: either a `choices` list, or a failure (`response.json()` raising, a
missing `choices`/`message`/`content` key, a non-object element) carrying the
raised exception's text. -/
inductive BodyParse where
  | choices (cs : List GroqChoice)
  | bad (err : String)
deriving DecidableEq

/-- The observable outcome of the `requests.post` call: either the post
itself raised (connection failure, timeout, invalid URL, ...) with exception
text `err`, or an HTTP response arrived with a status code, a reason phrase
and a body. -/
inductive HttpOutcome where
  | postError (err : String)
  | completed (status : Nat) (reason : String) (body : BodyParse)
deriving DecidableEq

/-- The fixed completions endpoint. -/
def groq_url : String := "https://api.groq.com/openai/v1/chat/completions"

/-- The 28-space indentation of the continuation lines of the system prompt's
Python triple-quoted literal. -/
def ind28 : String := "                            "

/-- The 31-space indentation of the two sub-bullets of rule 6. -/
def ind31 : String := "                               "

/-- The system message content from `src/app.py` lines 25-38, reproduced
byte-for-byte (the Python triple-quoted string keeps its source indentation;
apostrophes are written `\x27`). -/
def system_content : String :=
  "You are a helpful assistant that generates JQL queries for Jira based on natural language descriptions.\n"
  ++ ind28 ++ "Follow these strict rules when creating JQL queries:\n"
  ++ ind28 ++ "1. For Epics, ALWAYS use \x27issuetype = \"Program Epic\"\x27 (never use just \x27Epic\x27)\n"
  ++ ind28 ++ "2. For Features, always use \x27issuetype = \"Feature\"\x27\n"
  ++ ind28 ++ "3. For Stories, use \x27issuetype = \"Story\"\x27\n"
  ++ ind28 ++ "4. For Enablers, use \x27issuetype = \"Enabler\"\x27\n"
  ++ ind28 ++ "5. When checking for text matches, use the tilde operator (~)\n"
  ++ ind28 ++ "6. When dealing with parent/child relationships:\n"
  ++ ind31 ++ "- Use \x27parent in (issue in ...)\x27 for parent relationships\n"
  ++ ind31 ++ "- Use \x27issue in (...)\x27 for direct relationships\n"
  ++ ind28 ++ "7. Always use proper parentheses for complex conditions with AND/OR\n"
  ++ ind28 ++ "8. Remove any backticks or formatting from the output\n"
  ++ ind28 ++ "\n"
  ++ ind28 ++ "Respond only with the JQL query, without any explanations or additional text."

/-- Concatenation of a list of strings, used to reason about the atoms of
`system_content` without evaluating the whole literal. -/
def concatAll : List String → String
  | [] => ""
  | s :: rest => s ++ concatAll rest

/-- The `system_content` literal, atom by atom, in source order. -/
def sysParts : List String :=
  [ "You are a helpful assistant that generates JQL queries for Jira based on natural language descriptions.\n",
    ind28, "Follow these strict rules when creating JQL queries:\n",
    ind28, "1. For Epics, ALWAYS use \x27issuetype = \"Program Epic\"\x27 (never use just \x27Epic\x27)\n",
    ind28, "2. For Features, always use \x27issuetype = \"Feature\"\x27\n",
    ind28, "3. For Stories, use \x27issuetype = \"Story\"\x27\n",
    ind28, "4. For Enablers, use \x27issuetype = \"Enabler\"\x27\n",
    ind28, "5. When checking for text matches, use the tilde operator (~)\n",
    ind28, "6. When dealing with parent/child relationships:\n",
    ind31, "- Use \x27parent in (issue in ...)\x27 for parent relationships\n",
    ind31, "- Use \x27issue in (...)\x27 for direct relationships\n",
    ind28, "7. Always use proper parentheses for complex conditions with AND/OR\n",
    ind28, "8. Remove any backticks or formatting from the output\n",
    ind28, "\n",
    ind28, "Respond only with the JQL query, without any explanations or additional text." ]

/-- Python f-string interpolation of a value that may be `None`:
`os.getenv` yields `None` for an absent variable and `f"Bearer {api_key}"`
then renders as `"Bearer None"`. -/
def pyFormatOpt : Option String → String
  | some s => s
  | none => "None"

/-- The request `query_groq_api` builds (`src/app.py` lines 15-43): URL, the
`Authorization` and `Content-Type` headers, and the JSON payload with the
fixed system message and the user message wrapping the caller's text. -/
def build_request (search_query : String) (api_key : Option String) : HttpRequest :=
  { url := groq_url
    authorization := "Bearer " ++ pyFormatOpt api_key
    contentType := "application/json"
    model := "mixtral-8x7b-32768"
    messages :=
      [ { role := "system", content := system_content },
        { role := "user",
          content := "Create a JQL query for the following request: " ++ search_query } ]
    max_tokens := 1024 }

/-- Whether `response.raise_for_status()` raises an
`requests.exceptions.HTTPError`: true exactly for 4xx and 5xx statuses. -/
def raisesForStatus (status : Nat) : Bool := 400 ≤ status && status < 600

/-- The text of the `HTTPError` raised by `response.raise_for_status()`
(modelled from the `requests` library: `"{code} Client Error: {reason} for
url: {url}"` for 4xx, `"{code} Server Error: ..."` for 5xx); the client
displays it via `f"HTTP error occurred: {http_err}"`. -/
def http_error_text (status : Nat) (reason : String) (url : String) : String :=
  if status < 500 then
    toString status ++ " Client Error: " ++ reason ++ " for url: " ++ url
  else
    toString status ++ " Server Error: " ++ reason ++ " for url: " ++ url

/-- The extraction `response.json()["choices"][0]["message"]["content"]`:
the first choice's content on success, otherwise the text of the exception it
raises (`[0]` on an empty list raises `IndexError: list index out of
range`). -/
def extract_jql : BodyParse → Except String String
  | .bad err => .error err
  | .choices [] => .error "list index out of range"
  | .choices (c :: _) => .ok c.message_content

/-- `query_groq_api` from `src/app.py`: the single outbound request it posts,
paired with the string it returns to its caller.  The `try/except` chain is
modelled by matching on the outcome: an `HTTPError` from `raise_for_status`
is answered with the fixed message when the status is 429 and with
`"HTTP error occurred: ..."` otherwise, and every other exception — the post
raising, the body failing to parse — with `"Other error occurred: ..."`.
On success the first choice's content is returned `.strip()`ed. -/
def query_groq_api (search_query : String) (api_key : Option String)
    (o : HttpOutcome) : List HttpRequest × String :=
  let req := build_request search_query api_key
  let result :=
    match o with
    | .postError err => "Other error occurred: " ++ err
    | .completed status reason body =>
      if raisesForStatus status then
        if status = 429 then "API key limit reached. Please try again later."
        else "HTTP error occurred: " ++ http_error_text status reason groq_url
      else
        match extract_jql body with
        | .ok jql => py_strip jql
        | .error err => "Other error occurred: " ++ err
  ([req], result)

/-- `get_groq_api_key`: `os.getenv("GROQ_API_KEY")` against the process
environment current at the time of the call, modelled as an association
list. -/
def get_groq_api_key (env : List (String × String)) : Option String :=
  List.lookup "GROQ_API_KEY" env

/-- `create_jql_filter`: reads the key from the environment at call time and
queries the API. -/
def create_jql_filter (env : List (String × String)) (search_query : String)
    (o : HttpOutcome) : List HttpRequest × String :=
  query_groq_api search_query (get_groq_api_key env) o

/-- `process_response` from `src/app.py`: split the reply at the first blank
line (`response.split('\n\n', 1)`); the part before it, stripped and with
code fences and then backticks deleted, is the query, and the part after it
(when present) is the explanation. -/
def process_response (response : String) : String × String :=
  let parts := pySplitOnce ['\n', '\n'] response.toList
  let jql := pyReplace ['\x60'] []
    (pyReplace ['\x60', '\x60', '\x60'] [] (pyStrip (parts.headD [])))
  let explanation := if 1 < parts.length then parts.getD 1 [] else []
  (⟨jql⟩, ⟨explanation⟩)

/-- The query component of `process_response` as a `String`-level function:
strip, then delete code fences, then delete backticks. -/
def stripped_query (s : String) : String :=
  ⟨pyReplace ['\x60'] [] (pyReplace ['\x60', '\x60', '\x60'] [] (pyStrip s.toList))⟩

/-- The generate button's handler
`lambda x: process_response(create_jql_filter(x))`: the issued requests,
paired with the (query, explanation) values written to the output fields. -/
def generate_click (env : List (String × String)) (x : String)
    (o : HttpOutcome) : List HttpRequest × (String × String) :=
  let r := create_jql_filter env x o
  (r.1, process_response r.2)

/-- `refine_with_error`: the combined instruction built from the intent text
and the pasted Jira error, sent through `create_jql_filter` and
post-processed. -/
def refine_with_error (env : List (String × String))
    (search_query error_message : String) (o : HttpOutcome) :
    List HttpRequest × (String × String) :=
  let combined_query := "Original query: " ++ search_query ++ "\nJira error: "
    ++ error_message ++ "\nPlease fix the JQL query based on this error."
  let r := create_jql_filter env combined_query o
  (r.1, process_response r.2)

/-- The four visible fields of the interface: the two inputs (`search_query`,
`jira_error`) and the two outputs (`jql_output`, `explanation_output`). -/
structure UIState where
  search_query : String
  jira_error : String
  jql_output : String
  explanation_output : String
deriving DecidableEq

/-- The done button's handler `lambda: ("", "", "", "")`: the four values it
produces for its four output components. -/
def done_click : String × String × String × String := ("", "", "", "")

/-- Clicking the done button: Gradio assigns the handler's four outputs to
the four components, ignoring the prior state. -/
def apply_done (_s : UIState) : UIState :=
  { search_query := done_click.1
    jira_error := done_click.2.1
    jql_output := done_click.2.2.1
    explanation_output := done_click.2.2.2 }

/-! ## Helper lemmas about the blank-line split -/

lemma toList_append (a b : String) : (a ++ b).toList = a.toList ++ b.toList :=
  String.data_append a b

lemma infix_of_infix_tail {l rest : List Char} {c : Char}
    (h : l <:+: rest) : l <:+: c :: rest := by
  obtain ⟨s, t, hst⟩ := h
  exact ⟨c :: s, t, by rw [← hst]; rfl⟩

lemma leadsWith_nn {l : List Char} (h : leadsWith ['\n', '\n'] l = true) :
    ∃ t, l = '\n' :: '\n' :: t := by
  match l with
  | [] => simp [leadsWith] at h
  | [c] => simp [leadsWith] at h
  | c :: d :: t =>
    simp [leadsWith] at h
    exact ⟨t, by rw [← h.1, ← h.2]⟩

lemma splitOnceAt_nn_append (a b : List Char)
    (h1 : ¬ ['\n', '\n'] <:+: a) (h2 : a.getLast? ≠ some '\n') :
    splitOnceAt ['\n', '\n'] (a ++ '\n' :: '\n' :: b) = some (a, b) := by
  induction a with
  | nil =>
    show splitOnceAt ['\n', '\n'] ('\n' :: '\n' :: b) = some ([], b)
    simp [splitOnceAt, leadsWith]
  | cons c a ih =>
    have hlw : leadsWith ['\n', '\n'] (c :: (a ++ '\n' :: '\n' :: b)) = false := by
      cases a with
      | nil =>
        simp [leadsWith]
        intro h
        subst h
        exact h2 rfl
      | cons d a' =>
        simp [leadsWith]
        intro hc hd
        exfalso
        subst hc
        subst hd
        exact h1 ⟨[], a', rfl⟩
    have h1' : ¬ ['\n', '\n'] <:+: a := fun hh => h1 (infix_of_infix_tail hh)
    have h2' : a.getLast? ≠ some '\n' := by
      cases a with
      | nil => simp
      | cons d a' =>
        rw [List.getLast?_cons_cons] at h2
        exact h2
    show splitOnceAt ['\n', '\n'] (c :: (a ++ '\n' :: '\n' :: b)) = some (c :: a, b)
    rw [splitOnceAt, hlw]
    simp only [Bool.false_eq_true, if_false]
    rw [ih h1' h2']

lemma splitOnceAt_nn_none (s : List Char) (h : ¬ ['\n', '\n'] <:+: s) :
    splitOnceAt ['\n', '\n'] s = none := by
  induction s with
  | nil => rfl
  | cons c rest ih =>
    have hlw : leadsWith ['\n', '\n'] (c :: rest) = false := by
      rcases hb : leadsWith ['\n', '\n'] (c :: rest) with _ | _
      · rfl
      · obtain ⟨t, ht⟩ := leadsWith_nn hb
        exact absurd ⟨[], t, by rw [ht]; rfl⟩ h
    have h' : ¬ ['\n', '\n'] <:+: rest := fun hh => h (infix_of_infix_tail hh)
    rw [splitOnceAt, hlw]
    simp only [Bool.false_eq_true, if_false]
    rw [ih h']

lemma mem_concatAll {a : String} {parts : List String} (h : a ∈ parts) :
    a.toList <:+: (concatAll parts).toList := by
  induction parts with
  | nil => cases h
  | cons s rest ih =>
    rcases List.mem_cons.mp h with rfl | hmem
    · refine ⟨[], (concatAll rest).toList, ?_⟩
      rw [concatAll, toList_append]
      rfl
    · obtain ⟨u, v, huv⟩ := ih hmem
      refine ⟨s.toList ++ u, v, ?_⟩
      rw [concatAll, toList_append, ← huv]
      simp [List.append_assoc]

lemma toList_empty : ("" : String).toList = [] := rfl

lemma system_content_atoms :
    system_content.toList = (concatAll sysParts).toList := by
  simp only [system_content, sysParts, concatAll, toList_append, toList_empty,
    List.append_assoc, List.append_nil]

lemma toList_append_nn (a b : String) :
    (a ++ "\n\n" ++ b).toList = a.toList ++ '\n' :: '\n' :: b.toList := by
  rw [toList_append, toList_append, List.append_assoc]
  rfl

/-! ## The claims -/

/-- C2: for every raw reply containing a blank line, `process_response`
splits at the first occurrence of `"\n\n"`; the query is the text before the
split, `strip()`ed and with code fences and backticks deleted, and the
explanation is the text after the split.  The hypotheses state that the blank
line shown is the first one: no `"\n\n"` occurs inside `a` and `a` does not
end in a newline. -/
theorem claimC2 (a b : String)
    (h1 : ¬ ['\n', '\n'] <:+: a.toList) (h2 : a.toList.getLast? ≠ some '\n') :
    process_response (a ++ "\n\n" ++ b) = (stripped_query a, b) := by
  unfold process_response pySplitOnce
  rw [toList_append_nn, splitOnceAt_nn_append a.toList b.toList h1 h2]
  rfl

/-- C2 witness: the reply `"Q\n\nE"` yields query `"Q"` and explanation
`"E"`. -/
theorem claimC2_witness : process_response "Q\n\nE" = ("Q", "E") :=
  (claimC2 "Q" "E" (by decide) (by decide)).trans (by decide)

/-- C3: a raw reply with no blank line yields the whole `strip()`ed,
fence- and backtick-free text as the query and an empty explanation; being a
total function, `process_response` never fails. -/
theorem claimC3 (s : String) (h : ¬ ['\n', '\n'] <:+: s.toList) :
    process_response s = (stripped_query s, "") := by
  unfold process_response pySplitOnce
  rw [splitOnceAt_nn_none s.toList h]
  rfl

/-- C3 witness: a fenced reply without a blank line becomes the whole
cleaned text with an empty explanation. -/
theorem claimC3_witness :
    process_response "\x60\x60\x60project = EPIC\x60\x60\x60" = ("project = EPIC", "") :=
  (claimC3 "\x60\x60\x60project = EPIC\x60\x60\x60" (by decide)).trans (by decide)

/-- C10: cleaning applies only to the query part: for a reply with a blank
line, the explanation is returned exactly as the text after the first blank
line, with its backticks, fences, blank lines and surrounding whitespace
preserved. -/
theorem claimC10 (a b : String)
    (h1 : ¬ ['\n', '\n'] <:+: a.toList) (h2 : a.toList.getLast? ≠ some '\n') :
    (process_response (a ++ "\n\n" ++ b)).2 = b := by
  unfold process_response pySplitOnce
  rw [toList_append_nn, splitOnceAt_nn_append a.toList b.toList h1 h2]
  rfl

/-- C10 witness: an explanation carrying backticks, an inner blank line and
surrounding whitespace comes back verbatim. -/
theorem claimC10_witness :
    (process_response ("query" ++ "\n\n" ++ "  \x60E\x60\n\nmore  ")).2
      = "  \x60E\x60\n\nmore  " :=
  claimC10 "query" "  \x60E\x60\n\nmore  " (by decide) (by decide)

/-- C1: no exception propagates out of `query_groq_api` (its embedding is a
total function into strings) and each failure path resolves to a displayable
string: an HTTP 429 yields the fixed rate-limit message as the returned
value, any other 4xx/5xx yields a message naming the HTTP error, and a
failing post or an unextractable body yields a message naming that error. -/
theorem claimC1 (q : String) (key : Option String) (o : HttpOutcome) :
    (∀ st r b, o = .completed st r b → st = 429 →
      (query_groq_api q key o).2 = "API key limit reached. Please try again later.")
  ∧ (∀ st r b, o = .completed st r b → 400 ≤ st → st < 600 → st ≠ 429 →
      (query_groq_api q key o).2 = "HTTP error occurred: " ++ http_error_text st r groq_url)
  ∧ (∀ e, o = .postError e →
      (query_groq_api q key o).2 = "Other error occurred: " ++ e)
  ∧ (∀ st r b e, o = .completed st r b → ¬ (400 ≤ st ∧ st < 600) →
      extract_jql b = .error e →
      (query_groq_api q key o).2 = "Other error occurred: " ++ e) := by
  refine ⟨?_, ?_, ?_, ?_⟩
  · rintro st r b rfl rfl
    rfl
  · rintro st r b rfl hge hlt hne
    have hr : raisesForStatus st = true := by
      simp [raisesForStatus]
      omega
    simp [query_groq_api, hr, hne]
  · rintro e rfl
    rfl
  · rintro st r b e rfl hnr hex
    have hr : raisesForStatus st = false := by
      simp [raisesForStatus]
      omega
    simp [query_groq_api, hr, hex]

/-- C1 witness: a simulated HTTP 429 yields the fixed rate-limit message as
the client's return value. -/
theorem claimC1_witness :
    (query_groq_api "epics" none
      (.completed 429 "Too Many Requests" (.choices []))).2
      = "API key limit reached. Please try again later." :=
  (claimC1 "epics" none (.completed 429 "Too Many Requests" (.choices []))).1
    429 "Too Many Requests" (.choices []) rfl rfl

/-- C4: on a successful call (no 4xx/5xx status, well-formed body) the client
returns exactly the `strip()`ed message content of the first choice. -/
theorem claimC4 (q : String) (key : Option String) (st : Nat) (r : String)
    (c : GroqChoice) (cs : List GroqChoice) (h : ¬ (400 ≤ st ∧ st < 600)) :
    (query_groq_api q key (.completed st r (.choices (c :: cs)))).2
      = py_strip c.message_content := by
  have hr : raisesForStatus st = false := by
    simp [raisesForStatus]
    omega
  simp [query_groq_api, hr, extract_jql]

/-- C4 witness: a 200 response whose first choice carries padded text returns
that text trimmed. -/
theorem claimC4_witness :
    (query_groq_api "epics" none (.completed 200 "OK"
      (.choices [{ message_content := "  project = ABC  \n" }]))).2
      = "project = ABC" :=
  (claimC4 "epics" none 200 "OK" { message_content := "  project = ABC  \n" } []
    (by decide)).trans (by decide)

/-- C5: for every intent text, generate issues exactly one outbound request,
and its user message content contains the literal intent text as a
substring. -/
theorem claimC5 (env : List (String × String)) (x : String) (o : HttpOutcome) :
    (generate_click env x o).1.length = 1
  ∧ ∀ req ∈ (generate_click env x o).1,
      ∃ m ∈ req.messages, m.role = "user" ∧ x.toList <:+: m.content.toList := by
  constructor
  · rfl
  · intro req hreq
    have h0 : (generate_click env x o).1
        = [build_request x (get_groq_api_key env)] := rfl
    rw [h0, List.mem_singleton] at hreq
    subst hreq
    refine ⟨{ role := "user"
              content := "Create a JQL query for the following request: " ++ x },
      ?_, rfl, ?_⟩
    · simp [build_request]
    · rw [toList_append]
      exact (List.suffix_append _ _).isInfix

/-- C5 witness: generating from a concrete intent issues one request whose
user message contains the intent verbatim. -/
theorem claimC5_witness :
    (generate_click [] "find all epics" (.postError "boom")).1.length = 1
  ∧ ∃ m ∈ (build_request "find all epics" none).messages, m.role = "user"
      ∧ ("find all epics" : String).toList <:+: m.content.toList :=
  ⟨(claimC5 [] "find all epics" (.postError "boom")).1,
    (claimC5 [] "find all epics" (.postError "boom")).2
      (build_request "find all epics" none) (List.mem_singleton.mpr rfl)⟩

set_option maxRecDepth 2048 in
/-- C6: the system message is a fixed constant independent of the intent text
and the key, and it contains the seven rules: the `"Program Epic"` issue-type
literal for Epics (never plain `"Epic"`), the `"Feature"`, `"Story"` and
`"Enabler"` literals, the tilde operator for fuzzy matches, the nested
membership filter for parent-of relationships, full parenthesization, no
backtick or code-fence formatting, and no prose beyond the query. -/
theorem claimC6 (q q' : String) (key key' : Option String) :
    (build_request q key).messages.headD { role := "", content := "" }
      = (build_request q' key').messages.headD { role := "", content := "" }
  ∧ (build_request q key).messages.headD { role := "", content := "" }
      = { role := "system", content := system_content }
  ∧ ("issuetype = \"Program Epic\"" : String).toList <:+: system_content.toList
  ∧ ("never use just \x27Epic\x27" : String).toList <:+: system_content.toList
  ∧ ("issuetype = \"Feature\"" : String).toList <:+: system_content.toList
  ∧ ("issuetype = \"Story\"" : String).toList <:+: system_content.toList
  ∧ ("issuetype = \"Enabler\"" : String).toList <:+: system_content.toList
  ∧ ("use the tilde operator (~)" : String).toList <:+: system_content.toList
  ∧ ("Use \x27parent in (issue in ...)\x27 for parent relationships" : String).toList
      <:+: system_content.toList
  ∧ ("Always use proper parentheses for complex conditions with AND/OR" : String).toList
      <:+: system_content.toList
  ∧ ("Remove any backticks or formatting from the output" : String).toList
      <:+: system_content.toList
  ∧ ("Respond only with the JQL query, without any explanations or additional text" : String).toList
      <:+: system_content.toList := by
  refine ⟨rfl, rfl, ?_, ?_, ?_, ?_, ?_, ?_, ?_, ?_, ?_, ?_⟩ <;> rw [system_content_atoms]
  · exact List.IsInfix.trans
      (show ("issuetype = \"Program Epic\"" : String).toList <:+:
        ("1. For Epics, ALWAYS use \x27issuetype = \"Program Epic\"\x27 (never use just \x27Epic\x27)\n" : String).toList
        by decide)
      (mem_concatAll (by simp [sysParts]))
  · exact List.IsInfix.trans
      (show ("never use just \x27Epic\x27" : String).toList <:+:
        ("1. For Epics, ALWAYS use \x27issuetype = \"Program Epic\"\x27 (never use just \x27Epic\x27)\n" : String).toList
        by decide)
      (mem_concatAll (by simp [sysParts]))
  · exact List.IsInfix.trans
      (show ("issuetype = \"Feature\"" : String).toList <:+:
        ("2. For Features, always use \x27issuetype = \"Feature\"\x27\n" : String).toList
        by decide)
      (mem_concatAll (by simp [sysParts]))
  · exact List.IsInfix.trans
      (show ("issuetype = \"Story\"" : String).toList <:+:
        ("3. For Stories, use \x27issuetype = \"Story\"\x27\n" : String).toList
        by decide)
      (mem_concatAll (by simp [sysParts]))
  · exact List.IsInfix.trans
      (show ("issuetype = \"Enabler\"" : String).toList <:+:
        ("4. For Enablers, use \x27issuetype = \"Enabler\"\x27\n" : String).toList
        by decide)
      (mem_concatAll (by simp [sysParts]))
  · exact List.IsInfix.trans
      (show ("use the tilde operator (~)" : String).toList <:+:
        ("5. When checking for text matches, use the tilde operator (~)\n" : String).toList
        by decide)
      (mem_concatAll (by simp [sysParts]))
  · exact List.IsInfix.trans
      (show ("Use \x27parent in (issue in ...)\x27 for parent relationships" : String).toList <:+:
        ("- Use \x27parent in (issue in ...)\x27 for parent relationships\n" : String).toList
        by decide)
      (mem_concatAll (by simp [sysParts]))
  · exact List.IsInfix.trans
      (show ("Always use proper parentheses for complex conditions with AND/OR" : String).toList <:+:
        ("7. Always use proper parentheses for complex conditions with AND/OR\n" : String).toList
        by decide)
      (mem_concatAll (by simp [sysParts]))
  · exact List.IsInfix.trans
      (show ("Remove any backticks or formatting from the output" : String).toList <:+:
        ("8. Remove any backticks or formatting from the output\n" : String).toList
        by decide)
      (mem_concatAll (by simp [sysParts]))
  · exact List.IsInfix.trans
      (show ("Respond only with the JQL query, without any explanations or additional text" : String).toList <:+:
        ("Respond only with the JQL query, without any explanations or additional text." : String).toList
        by decide)
      (mem_concatAll (by simp [sysParts]))

/-- C7: refine issues one request whose user message content contains the
combined instruction, and hence both the original intent text and the pasted
error text verbatim as substrings. -/
theorem claimC7 (env : List (String × String)) (q e : String) (o : HttpOutcome) :
    (refine_with_error env q e o).1.length = 1
  ∧ ∀ req ∈ (refine_with_error env q e o).1,
      ∃ m ∈ req.messages, m.role = "user"
        ∧ ("Original query: " ++ q ++ "\nJira error: " ++ e
            ++ "\nPlease fix the JQL query based on this error.").toList
            <:+: m.content.toList
        ∧ q.toList <:+: m.content.toList
        ∧ e.toList <:+: m.content.toList := by
  constructor
  · rfl
  · intro req hreq
    have h0 : (refine_with_error env q e o).1
        = [build_request ("Original query: " ++ q ++ "\nJira error: " ++ e
            ++ "\nPlease fix the JQL query based on this error.")
            (get_groq_api_key env)] := rfl
    rw [h0, List.mem_singleton] at hreq
    subst hreq
    refine ⟨{ role := "user"
              content := "Create a JQL query for the following request: "
                ++ ("Original query: " ++ q ++ "\nJira error: " ++ e
                    ++ "\nPlease fix the JQL query based on this error.") },
      ?_, rfl, ?_, ?_, ?_⟩
    · simp [build_request]
    · rw [toList_append]
      exact (List.suffix_append _ _).isInfix
    · refine ⟨("Create a JQL query for the following request: "
        ++ "Original query: " : String).toList,
        ("\nJira error: " ++ e ++ "\nPlease fix the JQL query based on this error."
          : String).toList, ?_⟩
      simp [toList_append, List.append_assoc]
    · refine ⟨("Create a JQL query for the following request: "
        ++ ("Original query: " ++ q ++ "\nJira error: ") : String).toList,
        ("\nPlease fix the JQL query based on this error." : String).toList, ?_⟩
      simp [toList_append, List.append_assoc]

/-- C7 witness: refining with a concrete intent and error issues one request
whose user message contains the combined instruction and both inputs. -/
theorem claimC7_witness :
    (refine_with_error [] "find epics" "Field X does not exist" (.postError "boom")).1.length = 1
  ∧ ∃ m ∈ (build_request ("Original query: " ++ "find epics" ++ "\nJira error: "
        ++ "Field X does not exist"
        ++ "\nPlease fix the JQL query based on this error.") none).messages,
      m.role = "user"
      ∧ ("Original query: " ++ "find epics" ++ "\nJira error: "
          ++ "Field X does not exist"
          ++ "\nPlease fix the JQL query based on this error." : String).toList
          <:+: m.content.toList
      ∧ ("find epics" : String).toList <:+: m.content.toList
      ∧ ("Field X does not exist" : String).toList <:+: m.content.toList :=
  ⟨(claimC7 [] "find epics" "Field X does not exist" (.postError "boom")).1,
    (claimC7 [] "find epics" "Field X does not exist" (.postError "boom")).2
      (build_request ("Original query: " ++ "find epics" ++ "\nJira error: "
        ++ "Field X does not exist"
        ++ "\nPlease fix the JQL query based on this error.") none)
      (List.mem_singleton.mpr rfl)⟩

/-- C8: clicking done yields all four visible fields empty, regardless of the
prior state. -/
theorem claimC8 (s : UIState) :
    apply_done s = { search_query := ""
                     jira_error := ""
                     jql_output := ""
                     explanation_output := "" } := rfl

/-- C9 counterexample: the claim that every outbound request uses a single
startup-time credential — so that the issued request does not depend on the
environment current at call time — is false: `create_jql_filter` reads
`GROQ_API_KEY` on every invocation, and two calls under environments holding
different values issue different requests. -/
theorem claimC9_counterexample :
    ¬ ∀ (env env' : List (String × String)) (q : String) (o : HttpOutcome),
        (create_jql_filter env q o).1 = (create_jql_filter env' q o).1 := by
  intro h
  have h1 := h [("GROQ_API_KEY", "startup-key")] [("GROQ_API_KEY", "changed-key")]
    "epics" (.postError "boom")
  have h2 := congrArg
    (fun l => (l.headD (build_request "" none)).authorization) h1
  exact absurd h2 (by decide)

/-- C9 (amended): the bearer credential is read from the process environment
on every invocation: each outbound request's authorization header carries the
value of `GROQ_API_KEY` in the environment current at call time, so a change
to the variable after startup does affect subsequent requests. -/
theorem claimC9 (env : List (String × String)) (q : String) (o : HttpOutcome) :
    ∀ req ∈ (create_jql_filter env q o).1,
      req.authorization = "Bearer " ++ pyFormatOpt (get_groq_api_key env) := by
  intro req hreq
  have h0 : (create_jql_filter env q o).1
      = [build_request q (get_groq_api_key env)] := rfl
  rw [h0, List.mem_singleton] at hreq
  subst hreq
  rfl

/-- C9 witness: with the key set to `"secret"` at call time, the issued
request carries `"Bearer secret"`. -/
theorem claimC9_witness :
    (build_request "epics" (get_groq_api_key [("GROQ_API_KEY", "secret")])).authorization
      = "Bearer secret" :=
  (claimC9 [("GROQ_API_KEY", "secret")] "epics" (.postError "boom")
    (build_request "epics" (get_groq_api_key [("GROQ_API_KEY", "secret")]))
    (List.mem_singleton.mpr rfl)).trans (by decide)

end JQLCreator
